import Mathlib

/-!
Verification of the review-extraction / report-synthesis pipeline of
`src/uk_scraper.py` (a Streamlit dashboard that scrapes Amazon UK review
text with Playwright and feeds it to a Google generative-AI model).

The embedding is shallow: the pure string/list manipulations are
translated directly; the two effectful external calls (browser
navigation + element text collection, and the generative-AI provider)
are passed in as parameters returning `Except String` values, an
`error e` standing for the Python exception with message `e` that the
source catches.
-/

namespace UkScraper

/-! ### Review cleaning (lines 103-106 of `uk_scraper.py`)

`extracted_reviews = [text.strip().replace('\n', ' ')[:400] for text in raw_data]`
-/

/-- The characters removed by Python `str.strip()`: exactly those for
which `str.isspace()` is true — ASCII whitespace U+0009-U+000D and
U+0020, the file/group/record/unit separators U+001C-U+001F, and the
Unicode spaces U+0085, U+00A0 (no-break space), U+1680,
U+2000-U+200A, U+2028, U+2029, U+202F, U+205F, U+3000. -/
def isPySpace (c : Char) : Bool :=
  let n := c.toNat
  (0x09 ≤ n && n ≤ 0x0d) || n = 0x20 || (0x1c ≤ n && n ≤ 0x1f) ||
    n = 0x85 || n = 0xa0 || n = 0x1680 || (0x2000 ≤ n && n ≤ 0x200a) ||
    n = 0x2028 || n = 0x2029 || n = 0x202f || n = 0x205f || n = 0x3000

/-- Python `text.strip()`: drop leading and trailing whitespace. -/
def pyStrip (s : String) : String :=
  ⟨((s.data.dropWhile isPySpace).reverse.dropWhile isPySpace).reverse⟩

/-- Python `text.replace('\n', ' ')`: every newline becomes a space. -/
def replaceNewlines (s : String) : String :=
  ⟨s.data.map (fun c => if c = '\n' then ' ' else c)⟩

/-- Python `text[:400]`: keep the first 400 characters. -/
def truncate400 (s : String) : String :=
  ⟨s.data.take 400⟩

/-- One review snippet: `text.strip().replace('\n', ' ')[:400]`. -/
def cleanReview (text : String) : String :=
  truncate400 (replaceNewlines (pyStrip text))

/-- The list comprehension over `raw_data`. -/
def extractClean (raw_data : List String) : List String :=
  raw_data.map cleanReview

/-! ### URL normalization (lines 77-79)

`if not url.startswith("http"): url = "https://" + url`
-/

/-- Python `url.startswith("http")`, expressed on the character list. -/
def startsWithHttp (url : String) : Bool :=
  List.isPrefixOf "http".data url.data

def fix_url (url : String) : String :=
  if startsWithHttp url then url else "https://" ++ url

/-- Does the character list contain the scheme separator `://`? -/
def hasSchemeSep : List Char → Bool
  | ':' :: '/' :: '/' :: _ => true
  | _ :: rest => hasSchemeSep rest
  | [] => false

/-- Modelled from the spec: a URL "has a scheme" when it contains the
separator `://`; `spec.md` only speaks of a URL "missing a scheme"
(scheme optional), so this is the spec-side notion the code's
`startswith("http")` test is compared against. -/
def hasScheme (url : String) : Bool :=
  hasSchemeSep url.data

/-! ### Extractor (`start_data_extraction`, lines 76-112)

The browser session (navigate, fixed sleep, wait for the
`[data-hook='review-body']` selector, `all_inner_texts`) is abstracted
as one parameter `nav : String → Except String (List String)`: applied
to the navigated URL it yields either the raw inner texts of the
matched elements or the message of the exception raised anywhere in the
`try` block.  `extracted_reviews` starts empty and is only assigned in
the `count > 0` branch; on an exception `st.error(...)` shows
`"Scraper Engine Error: " ++ e` and the list stays empty.  The function
returns the review list together with the error message displayed (if
any). -/

def scraperErrorMsg (e : String) : String :=
  "Scraper Engine Error: " ++ e

def start_data_extraction (url : String)
    (nav : String → Except String (List String)) :
    List String × Option String :=
  match nav (fix_url url) with
  | .ok raw_data =>
      (if raw_data.length > 0 then extractClean raw_data else [], none)
  | .error e => ([], some (scraperErrorMsg e))

/-! ### Report synthesizer (`analyze_market_intelligence`, lines 25-73)

`listModels` stands for `genai.configure` + the filtered
`genai.list_models()` call (names of accessible models supporting
`generateContent`); `generate` stands for
`GenerativeModel(m).generate_content(prompt).text`.  An `error e` in
either is the exception the source's `except Exception` catches. -/

def preferredModels : List String :=
  ["models/gemini-1.5-flash", "models/gemini-1.5-pro", "models/gemini-1.0-pro"]

/-- The `for m_name in [...]: if m_name in available_models: break` loop. -/
def selectPreferred (available_models : List String) : Option String :=
  preferredModels.find? (fun m_name => available_models.contains m_name)

/-- Model resolution after the loop:
`if not selected_model: selected_model = available_models[0] if available_models else None`
followed by `if not selected_model: return "Critical Error: ..."`.
Python truthiness: the second guard also fires when the fallback
`available_models[0]` is the empty string, so `""` resolves to `none`. -/
def resolveModel (available_models : List String) : Option String :=
  match (match selectPreferred available_models with
         | some m => some m
         | none => available_models.head?) with
  | some m => if m = "" then none else some m
  | none => none

def noFeedbackError : String := "Error: No customer feedback found to analyze."

def noModelError : String :=
  "Critical Error: No generative AI models found for this API key."

def aiSystemError (e : String) : String :=
  "AI System Error: " ++ e ++ ". Please check your Google AI Studio permissions."

/-- `"\n".join([f"- {r}" for r in reviews_list])` (the braces here quote
the Python f-string placeholder). -/
def reviewsSummary (reviews_list : List String) : String :=
  String.intercalate "\n" (reviews_list.map (fun r => "- " ++ r))

/-- The fixed-shape consultant prompt built around the review summary. -/
def buildPrompt (reviews_list : List String) : String :=
  "\n        Act as a professional E-commerce Strategy Consultant for the UK market. \n        Analyze the following Amazon customer reviews and provide a strategic report:\n        \n        REVIEWS:\n        "
    ++ reviewsSummary reviews_list
    ++ "\n        \n        REPORT STRUCTURE:\n        1. MARKET OPPORTUNITY SCORE (0-100)\n        2. TOP 3 CUSTOMER PAIN POINTS (What specifically are they struggling with?)\n        3. STRATEGIC GROWTH SUGGESTION (Bundle ideas, cross-sell items, or specific improvements)\n        4. OVERALL SENTIMENT (Positive/Neutral/Negative)\n        \n        Tone: Professional, data-driven, and actionable for a business owner.\n        "

def analyze_market_intelligence (reviews_list : List String)
    (listModels : Except String (List String))
    (generate : String → String → Except String String) : String :=
  if reviews_list.isEmpty then noFeedbackError
  else
    match listModels with
    | .error e => aiSystemError e
    | .ok available_models =>
        match resolveModel available_models with
        | none => noModelError
        | some selected_model =>
            match generate selected_model (buildPrompt reviews_list) with
            | .error e => aiSystemError e
            | .ok resp =>
                "**Analysis Model:** " ++ selected_model ++ "\n\n" ++ resp

/-! ### Button handler (lines 124-151)

`if results: ... report = analyze_market_intelligence(results) ...
else: st.error("No reviews found. ...")` -/

def noReviewsMsg : String :=
  "No reviews found. Please ensure the URL is correct and CAPTCHA was solved."

inductive PipelineOutcome where
  | report (text : String) (results : List String)
  | noData (errMsg : String)
  deriving DecidableEq

/-- The branch of the button handler after extraction finished: `synth`
is the call to `analyze_market_intelligence`. -/
def runPipeline (results : List String)
    (synth : List String → String) : PipelineOutcome :=
  if results.isEmpty then .noData noReviewsMsg
  else .report (synth results) results

/-! ### Helper lemmas -/

theorem cleanReview_length (text : String) :
    (cleanReview text).length = min (pyStrip text).length 400 := by
  show (List.take 400 ((pyStrip text).data.map (fun c => if c = '\n' then ' ' else c))).length
      = min (pyStrip text).data.length 400
  rw [List.length_take, List.length_map, Nat.min_comm]

end UkScraper

open UkScraper

/-! ## Claims -/

set_option maxRecDepth 10000 in
/-- C1 (counterexample): the claim "any raw review text longer than 400
characters yields a snippet of exactly 400 characters" fails on a
401-character raw text ending in two spaces: `strip()` runs before the
`[:400]` cut, so the snippet has only 399 characters. -/
theorem c1_counterexample :
    (String.mk (List.replicate 399 'a' ++ [' ', ' '])).length = 401 ∧
    400 < (String.mk (List.replicate 399 'a' ++ [' ', ' '])).length ∧
    (cleanReview (String.mk (List.replicate 399 'a' ++ [' ', ' ']))).length ≠ 400 ∧
    (cleanReview (String.mk (List.replicate 399 'a' ++ [' ', ' ']))).length = 399 := by
  refine ⟨?_, ?_, ?_, ?_⟩ <;> decide

/-- C1 (amended): for every raw review text whose *trimmed* form is
longer than 400 characters, the stored ReviewSnippet is exactly 400
characters long. -/
theorem c1_snippet_exactly_400 (text : String)
    (h : 400 < (pyStrip text).length) :
    (cleanReview text).length = 400 := by
  rw [cleanReview_length]
  omega

set_option maxRecDepth 10000 in
/-- C1 witness: a 401-character all-`'a'` review (trim leaves it alone)
is cut to exactly 400 characters. -/
theorem c1_witness :
    (cleanReview (String.mk (List.replicate 401 'a'))).length = 400 :=
  c1_snippet_exactly_400 (String.mk (List.replicate 401 'a')) (by decide)

/-- C2 (counterexample): the URL `ftp://example.com` already has a
scheme, yet the Extractor (whose test is `startswith("http")`, not
scheme presence) prepends `https://` and navigates to a changed URL. -/
theorem c2_counterexample :
    hasScheme "ftp://example.com" = true ∧
    fix_url "ftp://example.com" = "https://ftp://example.com" ∧
    fix_url "ftp://example.com" ≠ "ftp://example.com" := by
  refine ⟨?_, ?_, ?_⟩ <;> decide

/-- C2 (amended): every input URL that does not start with the literal
`"http"` gets `"https://"` prepended before navigation; URLs starting
with `"http"` are navigated to unchanged. -/
theorem c2_prepend_https (url : String) :
    (startsWithHttp url = false → fix_url url = "https://" ++ url) ∧
    (startsWithHttp url = true → fix_url url = url) := by
  constructor <;> intro h <;> simp [fix_url, h]

/-- C2 witness: a bare host gets the scheme prepended; an `https` URL is
left alone. -/
theorem c2_witness :
    fix_url "www.amazon.co.uk" = "https://" ++ "www.amazon.co.uk" ∧
    fix_url "https://www.amazon.co.uk" = "https://www.amazon.co.uk" :=
  ⟨(c2_prepend_https "www.amazon.co.uk").1 (by decide),
   (c2_prepend_https "https://www.amazon.co.uk").2 (by decide)⟩

/-- C3: on an empty ExtractionResult the handler takes the error branch:
the outcome is the "no data" failure message, it does not depend on the
synthesizer at all (never invoked), and a report outcome is only ever
produced from a non-empty result list. -/
theorem c3_empty_result_no_report (results : List String)
    (synth synth2 : List String → String) :
    (results = [] →
      runPipeline results synth = .noData noReviewsMsg ∧
      runPipeline results synth = runPipeline results synth2) ∧
    (∀ r rs, runPipeline results synth = .report r rs → results ≠ []) := by
  constructor
  · rintro rfl
    exact ⟨rfl, rfl⟩
  · intro r rs h hempty
    subst hempty
    have h' : PipelineOutcome.noData noReviewsMsg = .report r rs := h
    exact PipelineOutcome.noConfusion h'

/-- C3 witness: with no extracted reviews the pipeline surfaces the
"No reviews found" failure, for an arbitrary concrete synthesizer. -/
theorem c3_witness :
    runPipeline [] (fun _ => "a report") = .noData noReviewsMsg :=
  ((c3_empty_result_no_report [] (fun _ => "a report") (fun _ => "b")).1 rfl).1

/-- C4 (counterexample): for the accessible list `[""]` no preferred
name occurs and the list is non-empty, yet resolution does not select
its first element `""` — the Python truthiness guard
`if not selected_model` treats the empty-string fallback as missing and
the synthesizer returns the "no models" error instead. -/
theorem c4_counterexample :
    selectPreferred [""] = none ∧
    ([""] : List String) ≠ [] ∧
    ([""] : List String).head? = some "" ∧
    resolveModel [""] ≠ some "" ∧
    analyze_market_intelligence ["a review"] (.ok [""])
      (fun _ _ => .ok "resp") = noModelError := by
  refine ⟨rfl, by decide, rfl, by decide, rfl⟩

/-- C4 (amended): the first name of the fixed ranked preference list
occurring in the accessible list is selected; if none occurs, the first
element of the accessible list is selected provided it is not the empty
string; if the accessible list is empty (or its first element is the
empty string with no preferred match), resolution fails. -/
theorem c4_model_resolution (available_models : List String) :
    (∀ m, selectPreferred available_models = some m →
        resolveModel available_models = some m) ∧
    (selectPreferred available_models = none →
      ∀ m, available_models.head? = some m → m ≠ "" →
        resolveModel available_models = some m) ∧
    (available_models = [] → resolveModel available_models = none) := by
  refine ⟨?_, ?_, ?_⟩
  · intro m hm
    have hmem : m ∈ preferredModels := List.mem_of_find?_eq_some hm
    have hne : m ≠ "" := by
      simp [preferredModels] at hmem
      rcases hmem with rfl | rfl | rfl <;> decide
    simp [resolveModel, hm, hne]
  · intro hnone m hh hne
    simp [resolveModel, hnone, hh, hne]
  · rintro rfl
    rfl

/-- C4 witness: a preferred model beats accessible-list order; with no
preferred match the first accessible model is chosen; an empty
accessible list resolves to nothing. -/
theorem c4_witness :
    resolveModel ["other-model", "models/gemini-1.5-pro"]
      = some "models/gemini-1.5-pro" ∧
    resolveModel ["custom-model", "other-model"] = some "custom-model" ∧
    resolveModel [] = none :=
  ⟨(c4_model_resolution ["other-model", "models/gemini-1.5-pro"]).1
      "models/gemini-1.5-pro" (by decide),
   (c4_model_resolution ["custom-model", "other-model"]).2.1 (by decide)
      "custom-model" rfl (by decide),
   (c4_model_resolution []).2.2 rfl⟩

/-- C5: with a non-empty review list but an empty accessible-model list,
report generation returns the described "no models found" error string;
the embedded function is total, so no fault escapes, and the guarded
`available_models[0] if available_models else None` never indexes the
empty list. -/
theorem c5_no_model_available (reviews_list : List String)
    (g : String → String → Except String String)
    (h : reviews_list ≠ []) :
    analyze_market_intelligence reviews_list (.ok []) g = noModelError := by
  cases reviews_list with
  | nil => exact absurd rfl h
  | cons a t => rfl

/-- C5 witness: concrete reviews, empty accessible-model list. -/
theorem c5_witness :
    analyze_market_intelligence
      ["Great battery life but packaging was damaged."]
      (.ok []) (fun _ _ => .ok "resp") = noModelError :=
  c5_no_model_available _ _ (by decide)

/-- C6: on the success path (non-empty reviews, a model resolved, the
generation call returns text), the report is exactly the header line
naming the resolved model followed by a blank line and the model's raw
response; in particular the header is a prefix of the report. -/
theorem c6_report_header (reviews_list available_models : List String)
    (m resp : String) (g : String → String → Except String String)
    (hne : reviews_list ≠ []) (hm : resolveModel available_models = some m)
    (hg : g m (buildPrompt reviews_list) = .ok resp) :
    analyze_market_intelligence reviews_list (.ok available_models) g
      = "**Analysis Model:** " ++ m ++ "\n\n" ++ resp ∧
    ("**Analysis Model:** " ++ m).data <+:
      (analyze_market_intelligence reviews_list (.ok available_models) g).data := by
  have hE : reviews_list.isEmpty = false := by
    cases reviews_list with
    | nil => exact absurd rfl hne
    | cons a t => rfl
  have hEq : analyze_market_intelligence reviews_list (.ok available_models) g
      = "**Analysis Model:** " ++ m ++ "\n\n" ++ resp := by
    simp [analyze_market_intelligence, hE, hm, hg]
  refine ⟨hEq, ?_⟩
  rw [hEq]
  have hsplit : ((("**Analysis Model:** " ++ m) ++ "\n\n") ++ resp).data
      = ("**Analysis Model:** " ++ m).data ++ ("\n\n".data ++ resp.data) := by
    rw [String.data_append, String.data_append, List.append_assoc]
  rw [hsplit]
  exact List.prefix_append _ _

/-- C6 witness: the end-to-end example snippets with the flash model
accessible and a concrete generation result. -/
theorem c6_witness :
    analyze_market_intelligence
      ["Great battery life but packaging was damaged.",
       "Arrived late, otherwise fine."]
      (.ok ["models/gemini-1.5-flash"]) (fun _ _ => .ok "REPORT BODY")
      = "**Analysis Model:** " ++ "models/gemini-1.5-flash" ++ "\n\n"
          ++ "REPORT BODY" :=
  (c6_report_header
      ["Great battery life but packaging was damaged.",
       "Arrived late, otherwise fine."]
      ["models/gemini-1.5-flash"] "models/gemini-1.5-flash" "REPORT BODY"
      (fun _ _ => .ok "REPORT BODY") (by decide) (by decide) rfl).1

/-- C7: the stored snippet never contains a newline character: cleaning
maps every `'\n'` of the stripped text to a space before truncation. -/
theorem c7_no_newline_in_snippet (text : String) :
    ((cleanReview text).data.all (fun c => c != '\n')) = true := by
  rw [List.all_eq_true]
  intro c hc
  have hc' : c ∈ List.take 400
      ((pyStrip text).data.map (fun c => if c = '\n' then ' ' else c)) := hc
  have hmem := List.take_subset _ _ hc'
  obtain ⟨a, _, rfl⟩ := List.mem_map.mp hmem
  by_cases h : a = '\n' <;> simp [h]

/-- C8: every exception inside the synthesizer is caught and converted
to the descriptive "AI System Error" string — whether it is raised by
configuration/model listing or by the generation call itself; the
function always returns a string, never re-raises. -/
theorem c8_exceptions_caught (reviews_list available_models : List String)
    (e m : String) (g : String → String → Except String String)
    (hne : reviews_list ≠ []) :
    analyze_market_intelligence reviews_list (.error e) g = aiSystemError e ∧
    (resolveModel available_models = some m →
      analyze_market_intelligence reviews_list (.ok available_models)
        (fun _ _ => .error e) = aiSystemError e) := by
  have hE : reviews_list.isEmpty = false := by
    cases reviews_list with
    | nil => exact absurd rfl hne
    | cons a t => rfl
  constructor
  · simp [analyze_market_intelligence, hE]
  · intro hm
    simp [analyze_market_intelligence, hE, hm]

/-- C8 witness: an auth failure during model listing and a quota failure
during generation both come back as error strings. -/
theorem c8_witness :
    analyze_market_intelligence ["a review"] (.error "403: permission denied")
      (fun _ _ => .ok "x") = aiSystemError "403: permission denied" ∧
    analyze_market_intelligence ["a review"] (.ok ["models/gemini-1.5-pro"])
      (fun _ _ => .error "429: quota exceeded")
      = aiSystemError "429: quota exceeded" :=
  ⟨(c8_exceptions_caught ["a review"] [] "403: permission denied" ""
      (fun _ _ => .ok "x") (by decide)).1,
   (c8_exceptions_caught ["a review"] ["models/gemini-1.5-pro"]
      "429: quota exceeded" "models/gemini-1.5-pro"
      (fun _ _ => .ok "x") (by decide)).2 (by decide)⟩

/-- C9: if the single navigation/extraction attempt throws (selector
timeout included), the Extractor returns the still-empty review list
together with the user-visible "Scraper Engine Error" message; and the
outcome depends only on that one attempt's result at the normalized URL
— there is no retry or alternate-selector input to fall back on. -/
theorem c9_extractor_error_path (url e : String)
    (nav nav2 : String → Except String (List String))
    (h : nav (fix_url url) = .error e) :
    start_data_extraction url nav = ([], some (scraperErrorMsg e)) ∧
    (nav2 (fix_url url) = nav (fix_url url) →
      start_data_extraction url nav2 = start_data_extraction url nav) := by
  constructor
  · simp [start_data_extraction, h]
  · intro h2
    simp [start_data_extraction, h2]

/-- C9 witness: a concrete selector-timeout exception degrades to the
empty result plus the error message. -/
theorem c9_witness :
    start_data_extraction "www.amazon.co.uk/dp/B09BZR9JFG"
      (fun _ => .error "Timeout 12000ms exceeded")
      = ([], some (scraperErrorMsg "Timeout 12000ms exceeded")) :=
  (c9_extractor_error_path "www.amazon.co.uk/dp/B09BZR9JFG"
      "Timeout 12000ms exceeded"
      (fun _ => .error "Timeout 12000ms exceeded")
      (fun _ => .error "Timeout 12000ms exceeded") rfl).1

/-- C10: the Extractor's cleaning maps each raw text through trim, then
newline replacement, then truncation (in that order, so the cut applies
to the cleaned text); the output list has the same length as the raw
list and its i-th snippet comes from the i-th raw text, and every
snippet is at most 400 characters long. -/
theorem c10_cleaning_invariants (raw_data : List String) :
    (extractClean raw_data).length = raw_data.length ∧
    (∀ s ∈ extractClean raw_data, s.length ≤ 400) ∧
    (∀ i : Nat, (extractClean raw_data)[i]? =
      (raw_data[i]?).map (fun t => truncate400 (replaceNewlines (pyStrip t)))) := by
  refine ⟨List.length_map _ _, ?_, ?_⟩
  · intro s hs
    obtain ⟨t, _, rfl⟩ := List.mem_map.mp hs
    rw [cleanReview_length]
    exact Nat.min_le_right _ _
  · intro i
    show (raw_data.map cleanReview)[i]? = _
    rw [List.getElem?_map]
    cases raw_data[i]? with
    | none => rfl
    | some t => rfl

/-- C10 witness: a concrete raw list, instantiating the per-element
bound and the positional correspondence at index 0. -/
theorem c10_witness :
    (extractClean ["  hello\nworld  "]).length
        = (["  hello\nworld  "] : List String).length ∧
    (cleanReview "  hello\nworld  ").length ≤ 400 ∧
    (extractClean ["  hello\nworld  "])[0]? =
      ((["  hello\nworld  "] : List String)[0]?).map
        (fun t => truncate400 (replaceNewlines (pyStrip t))) :=
  ⟨(c10_cleaning_invariants ["  hello\nworld  "]).1,
   (c10_cleaning_invariants ["  hello\nworld  "]).2.1
      (cleanReview "  hello\nworld  ") (by decide),
   (c10_cleaning_invariants ["  hello\nworld  "]).2.2 0⟩
